import Mathlib

/-!
Verification of the variabledb store (src/variabledb/core.py, the canonical
implementation; src/variabledb.py is a near-duplicate variant).

Shallow embedding conventions:
* A Python object is represented by its identity, a `Nat`; the Python `is`
  comparison used by name resolution becomes equality of these identities.
* A Python `dict` (insertion-ordered, unique keys) is an association list
  `List (String × Nat)`; assignment updates in place or appends, matching
  CPython semantics.
* The process-wide set `VariableDb.unsaved_files` is a `List String` with
  set-flavoured add/discard (`setAdd` only appends absent elements).
* The filesystem is a map from filename to the pickled blob.  `dill.dump`
  of `self.data` is modelled as storing the dict itself (`Blob.dict`);
  a file whose unpickled content is not a dict is `Blob.nonDict`.
* Methods that mutate `self` return the updated store; methods whose body
  catches an exception and only logs it (`add`, `delete`, `replace`,
  `save`, `load`) return the logged error as an `Option DbError` or fall
  back to the unchanged state, while methods that raise to the caller
  (`add_by_name`) return `Except`.
* `save` can hit an `OSError`/`PicklingError` at the file layer; the embedding
  takes a boolean `ok` for whether the write succeeds.  On failure the
  handler runs: the file content is not observed further and the registry
  is left untouched, exactly as in the source's `except` branch.
-/

/-- A Python dict from variable names to object identities. -/
abbrev PyDict := List (String × Nat)

/-- The process-wide registry `VariableDb.unsaved_files` (a Python set of paths). -/
abbrev Registry := List String

/-- Content of a pickled file: a dict blob, or some non-dict payload. -/
inductive Blob where
  | dict (d : PyDict)
  | nonDict (tag : Nat)
deriving DecidableEq, Repr

/-- The filesystem: filenames mapped to pickled blobs. -/
abbrev FS := List (String × Blob)

/-- The error kinds of the store, with the Python exception each embeds:
`nameResolution` is the `ValueError("Could not determine variable name")`
(spec: NameResolutionError); `duplicateKey` the `KeyError("... already exists")`
(spec: DuplicateKeyError); `notFound` the `KeyError("... not found")`
(spec: NotFoundError); `typeMismatch` a `TypeError` (spec: TypeMismatchError);
`keyNotFound` the `KeyError` of container lookup (spec: KeyNotFoundError). -/
inductive DbError where
  | nameResolution
  | duplicateKey
  | notFound
  | typeMismatch
  | keyNotFound
deriving DecidableEq, Repr

/-- Python dict lookup `d[k]` returning `none` when the key is absent. -/
def dictLookup : PyDict → String → Option Nat
  | [], _ => none
  | (k', v') :: rest, k => if k' = k then some v' else dictLookup rest k

/-- Python membership test `k in d`. -/
def dictContains (d : PyDict) (k : String) : Bool :=
  (dictLookup d k).isSome

/-- Python dict assignment `d[k] = v`: update in place, else append. -/
def dictInsert : PyDict → String → Nat → PyDict
  | [], k, v => [(k, v)]
  | (k', v') :: rest, k, v =>
      if k' = k then (k, v) :: rest else (k', v') :: dictInsert rest k v

/-- Python `del d[k]`: drop the binding of `k`. -/
def dictErase : PyDict → String → PyDict
  | [], _ => []
  | (k', v') :: rest, k =>
      if k' = k then dictErase rest k else (k', v') :: dictErase rest k

/-- Filesystem read of the pickled blob at `k`. -/
def fsLookup : FS → String → Option Blob
  | [], _ => none
  | (k', b') :: rest, k => if k' = k then some b' else fsLookup rest k

/-- Filesystem write: `open(k, "wb")` followed by a full dump of `b`. -/
def fsWrite : FS → String → Blob → FS
  | [], k, b => [(k, b)]
  | (k', b') :: rest, k, b =>
      if k' = k then (k, b) :: rest else (k', b') :: fsWrite rest k b

/-- Python `set.add`: append only when absent. -/
def setAdd (r : Registry) (x : String) : Registry :=
  if x ∈ r then r else r ++ [x]

/-- Python `set.discard`: drop every occurrence. -/
def setRemove (r : Registry) (x : String) : Registry :=
  r.filter (fun y => y ≠ x)

/-- Python `s.endswith(t)`: suffix test on the character sequences. -/
def strEndsWith (s t : String) : Bool :=
  t.data.isSuffixOf s.data

/-- `check_file_name` (core.py line 16): append the `.db` suffix when missing.
The `isinstance(filename, str)` guard cannot fire in the embedding, where the
argument is a `String` by type. -/
def check_file_name (f : String) : String :=
  if strEndsWith f ".db" then f else f ++ ".db"

/-- The store: `filename` (normalised path), `data` (the entries dict) and
`scope` (the caller's name-resolution dict). -/
structure VariableDb where
  filename : String
  data : PyDict
  scope : PyDict
deriving DecidableEq, Repr

namespace VariableDb

/-- `__init__` (core.py lines 24-30): normalise the filename, start with empty
data, keep the caller's scope, and register the path in `unsaved_files`.
The `scope` is a dict by type, so the `TypeError` guard cannot fire. -/
def init (f : String) (scope : PyDict) (reg : Registry) : VariableDb × Registry :=
  let fn := check_file_name f
  (⟨fn, [], scope⟩, setAdd reg fn)

/-- `add_to_unsaved` (core.py lines 145-146). -/
def add_to_unsaved (db : VariableDb) (reg : Registry) : Registry :=
  setAdd reg db.filename

/-- `get_variable_name` (core.py lines 55-62): first scope key whose value is
identity-equal to the argument; `none` when no binding matches.  Iterating a
dict raises nothing, so the logged `KeyError`/`TypeError` branch is dead here. -/
def get_variable_name (db : VariableDb) (v : Nat) : Option String :=
  (db.scope.find? (fun p => p.2 = v)).map (fun p => p.1)

/-- Body of the `try` block of `add` (core.py lines 65-72): resolve the name,
reject a duplicate, otherwise produce the extended dict. -/
def addCore (db : VariableDb) (v : Nat) : Except DbError PyDict :=
  match db.get_variable_name v with
  | none => .error .nameResolution
  | some n =>
      if dictContains db.data n then .error .duplicateKey
      else .ok (dictInsert db.data n v)

/-- `add` (core.py lines 64-74): on success store the binding and mark dirty;
the `except` clause catches the error, logs it (returned as the third
component) and leaves the store untouched — nothing propagates to the caller. -/
def add (db : VariableDb) (reg : Registry) (v : Nat) :
    VariableDb × Registry × Option DbError :=
  match db.addCore v with
  | .ok d => ({ db with data := d }, db.add_to_unsaved reg, none)
  | .error e => (db, reg, some e)

/-- `add_by_name` (core.py lines 76-84): no `try` block — the `KeyError`s
propagate to the caller, hence the `Except` result. -/
def add_by_name (db : VariableDb) (reg : Registry) (n : String) :
    Except DbError (VariableDb × Registry) :=
  match dictLookup db.scope n with
  | none => .error .notFound
  | some v =>
      if dictContains db.data n then .error .duplicateKey
      else .ok ({ db with data := dictInsert db.data n v }, db.add_to_unsaved reg)

/-- The loop of `add_multiple` (core.py lines 88-89): `add` each value in turn.
`add` swallows its own errors, so the loop always runs to the end. -/
def addMLoop (db : VariableDb) (reg : Registry) (vs : List Nat) :
    VariableDb × Registry :=
  vs.foldl (fun s v => let r := add s.1 s.2 v; (r.1, r.2.1)) (db, reg)

/-- `add_multiple` (core.py lines 86-92): run the loop, then the trailing
`add_to_unsaved`.  The surrounding `except` is dead code: `add` never raises. -/
def add_multiple (db : VariableDb) (reg : Registry) (vs : List Nat) :
    VariableDb × Registry :=
  let p := addMLoop db reg vs
  (p.1, p.1.add_to_unsaved p.2)

/-- Body of the `try` block of `delete` (core.py lines 96-102). -/
def deleteCore (db : VariableDb) (v : Nat) : Except DbError PyDict :=
  match db.get_variable_name v with
  | none => .error .nameResolution
  | some n =>
      if dictContains db.data n then .ok (dictErase db.data n)
      else .error .notFound

/-- `delete` (core.py lines 94-104): like `add`, the `except` clause logs and
swallows the error. -/
def delete (db : VariableDb) (reg : Registry) (v : Nat) :
    VariableDb × Registry × Option DbError :=
  match db.deleteCore v with
  | .ok d => ({ db with data := d }, db.add_to_unsaved reg, none)
  | .error e => (db, reg, some e)

/-- Body of the `try` block of `replace` (core.py lines 108-114). -/
def replaceCore (db : VariableDb) (v : Nat) : Except DbError PyDict :=
  match db.get_variable_name v with
  | none => .error .nameResolution
  | some n =>
      if dictContains db.data n then .ok (dictInsert db.data n v)
      else .error .notFound

/-- `replace` (core.py lines 106-116): logs and swallows like `delete`. -/
def replace (db : VariableDb) (reg : Registry) (v : Nat) :
    VariableDb × Registry × Option DbError :=
  match db.replaceCore v with
  | .ok d => ({ db with data := d }, db.add_to_unsaved reg, none)
  | .error e => (db, reg, some e)

/-- `save` (core.py lines 118-124): dump `data` to `filename` and discard the
path from `unsaved_files`; on an `OSError`/`PicklingError` (`ok = false`) the
handler logs and the registry stays as it was. -/
def save (db : VariableDb) (fs : FS) (reg : Registry) (ok : Bool) :
    VariableDb × FS × Registry :=
  if ok then (db, fsWrite fs db.filename (.dict db.data), setRemove reg db.filename)
  else (db, fs, reg)

/-- `load` (core.py lines 126-135): read the blob at `filename`; replace `data`
wholesale and mark dirty when it is a dict; a missing file or non-dict blob is
logged and leaves the store unchanged. -/
def load (db : VariableDb) (fs : FS) (reg : Registry) : VariableDb × Registry :=
  match fsLookup fs db.filename with
  | some (.dict d) => ({ db with data := d }, db.add_to_unsaved reg)
  | _ => (db, reg)

/-- `clear` (core.py lines 137-139). -/
def clear (db : VariableDb) (reg : Registry) : VariableDb × Registry :=
  ({ db with data := [] }, db.add_to_unsaved reg)

/-- Modelled from the spec: `get(name, default=None)` of the `VariableDB`
class exercised by src/test_variabledb.py is absent from src/ (core.py has no
`get`).  Spec section 4.1: returns `entries[name]` if present, else `default`. -/
def get (db : VariableDb) (n : String) (default : Nat) : Nat :=
  match dictLookup db.data n with
  | some v => v
  | none => default

/-- Modelled from the spec: container-style lookup `store[name]`
(`__getitem__`), absent from src/.  Spec section 4.1: equivalent to `get` but
fails with `KeyNotFoundError` when the key is absent. -/
def getItem (db : VariableDb) (n : String) : Except DbError Nat :=
  match dictLookup db.data n with
  | some v => .ok v
  | none => .error .keyNotFound

end VariableDb

/-- An argument passed to deletion-by-name: a name string or any non-string
object (carried by its identity). -/
inductive PyArg where
  | str (s : String)
  | nonStr (id : Nat)
deriving DecidableEq, Repr

/-- Modelled from the spec: deletion by name-string, exercised by
src/test_variabledb.py and src/Tests/test_exceptions.py but absent from src/
(core.py's `delete` resolves a value by identity instead).  Spec section 4.1:
a non-string argument fails with a `TypeError`-class error distinct from the
not-found case; a string absent from entries fails with `NotFoundError`;
otherwise the entry is removed. -/
def delete_by_name (db : VariableDb) (arg : PyArg) : Except DbError PyDict :=
  match arg with
  | .nonStr _ => .error .typeMismatch
  | .str s =>
      if dictContains db.data s then .ok (dictErase db.data s)
      else .error .notFound

/-- `__enter__` (core.py lines 32-41): when the target file does not exist the
store is marked dirty; otherwise it is loaded. -/
def sweepEnter (db : VariableDb) (fs : FS) (reg : Registry) : VariableDb × Registry :=
  if (fsLookup fs db.filename).isSome then db.load fs reg
  else (db, db.add_to_unsaved reg)

/-- One pass of the loop body of `save_all_open_files` (core.py lines 149-152):
`with VariableDb(filename) as db: db.load(); db.save()`.  The constructor runs
with the default scope `gscope` (the module's `globals()`); `__enter__` marks
the store dirty when the file is missing and loads it otherwise; the body
reloads and saves; `__exit__` saves again.  File writes succeed in this model. -/
def sweepOne (gscope : PyDict) (s : FS × Registry) (q : String) : FS × Registry :=
  let p := VariableDb.init q gscope s.2
  let e := sweepEnter p.1 s.1 p.2
  let l := VariableDb.load e.1 s.1 e.2
  let t := VariableDb.save l.1 s.1 l.2 true
  let t2 := VariableDb.save t.1 t.2.1 t.2.2 true
  (t2.2.1, t2.2.2)

/-- `save_all_open_files` (core.py lines 148-152): iterate over
`unsaved_files.copy()` — a snapshot of the registry taken before the sweep —
running the reload-and-save body on each path. -/
def save_all_open_files (gscope : PyDict) (fs : FS) (reg : Registry) :
    FS × Registry :=
  reg.foldl (sweepOne gscope) (fs, reg)

/-! Helper lemmas about the dict, set, and filesystem primitives. -/

lemma mem_setAdd_iff {r : Registry} {x p : String} :
    p ∈ setAdd r x ↔ p ∈ r ∨ p = x := by
  unfold setAdd
  by_cases h : x ∈ r
  · simp only [if_pos h]
    constructor
    · exact Or.inl
    · rintro (hp | rfl)
      · exact hp
      · exact h
  · simp [if_neg h]

lemma mem_setRemove_iff {r : Registry} {x p : String} :
    p ∈ setRemove r x ↔ p ∈ r ∧ p ≠ x := by
  unfold setRemove
  simp [List.mem_filter]

lemma dictLookup_insert_self (d : PyDict) (k : String) (v : Nat) :
    dictLookup (dictInsert d k v) k = some v := by
  induction d with
  | nil => simp [dictInsert, dictLookup]
  | cons hd tl ih =>
      obtain ⟨k', v'⟩ := hd
      by_cases h : k' = k
      · simp [dictInsert, dictLookup, h]
      · simp [dictInsert, dictLookup, h, ih]

lemma fsLookup_write_self (fs : FS) (k : String) (b : Blob) :
    fsLookup (fsWrite fs k b) k = some b := by
  induction fs with
  | nil => simp [fsWrite, fsLookup]
  | cons hd tl ih =>
      obtain ⟨k', b'⟩ := hd
      by_cases h : k' = k
      · simp [fsWrite, fsLookup, h]
      · simp [fsWrite, fsLookup, h, ih]

lemma fsLookup_write_ne (fs : FS) {k p : String} (b : Blob) (h : p ≠ k) :
    fsLookup (fsWrite fs k b) p = fsLookup fs p := by
  induction fs with
  | nil => simp [fsWrite, fsLookup, Ne.symm h]
  | cons hd tl ih =>
      obtain ⟨k', b'⟩ := hd
      by_cases hk : k' = k
      · subst hk
        simp [fsWrite, fsLookup, Ne.symm h]
      · by_cases hp : k' = p
        · simp [fsWrite, fsLookup, hk, hp, h]
        · simp [fsWrite, fsLookup, hk, hp, ih]

lemma fsLookup_write_isSome (fs : FS) (k : String) (b : Blob) (p : String)
    (h : (fsLookup fs p).isSome = true) :
    (fsLookup (fsWrite fs k b) p).isSome = true := by
  by_cases hp : p = k
  · subst hp
    simp [fsLookup_write_self]
  · rw [fsLookup_write_ne fs b hp]
    exact h

lemma check_file_name_of_suffix {f : String} (h : strEndsWith f ".db" = true) :
    check_file_name f = f := by
  simp [check_file_name, h]

/-! Helper lemmas about the store operations. -/

lemma load_filename (db : VariableDb) (fs : FS) (reg : Registry) :
    (db.load fs reg).1.filename = db.filename := by
  unfold VariableDb.load
  cases hfs : fsLookup fs db.filename with
  | none => simp
  | some b => cases b <;> simp

lemma load_reg_mem {db : VariableDb} {fs : FS} {reg : Registry} {p : String}
    (h : p ∈ (db.load fs reg).2) : p ∈ reg ∨ p = db.filename := by
  unfold VariableDb.load at h
  cases hfs : fsLookup fs db.filename with
  | none => rw [hfs] at h; exact Or.inl h
  | some b =>
      cases b with
      | dict d =>
          rw [hfs] at h
          simpa [VariableDb.add_to_unsaved, mem_setAdd_iff] using h
      | nonDict t => rw [hfs] at h; exact Or.inl h

lemma sweepEnter_filename (db : VariableDb) (fs : FS) (reg : Registry) :
    (sweepEnter db fs reg).1.filename = db.filename := by
  unfold sweepEnter
  split
  · exact load_filename db fs reg
  · rfl

lemma sweepOne_reg_mem {g : PyDict} {s : FS × Registry} {q p : String}
    (h : p ∈ (sweepOne g s q).2) : p ∈ s.2 ∧ p ≠ check_file_name q := by
  rcases hb : fsLookup s.1 (check_file_name q) with _ | b
  · simp [sweepOne, sweepEnter, VariableDb.init, VariableDb.load, VariableDb.save,
      VariableDb.add_to_unsaved, hb, mem_setRemove_iff, mem_setAdd_iff] at h
    tauto
  · cases b with
    | dict d =>
        simp [sweepOne, sweepEnter, VariableDb.init, VariableDb.load, VariableDb.save,
          VariableDb.add_to_unsaved, hb, mem_setRemove_iff, mem_setAdd_iff] at h
        tauto
    | nonDict t =>
        simp [sweepOne, sweepEnter, VariableDb.init, VariableDb.load, VariableDb.save,
          VariableDb.add_to_unsaved, hb, mem_setRemove_iff, mem_setAdd_iff] at h
        tauto

lemma sweepOne_fs_self (g : PyDict) (s : FS × Registry) (q : String) :
    (fsLookup (sweepOne g s q).1 (check_file_name q)).isSome = true := by
  rcases hb : fsLookup s.1 (check_file_name q) with _ | b
  · simp [sweepOne, sweepEnter, VariableDb.init, VariableDb.load, VariableDb.save,
      VariableDb.add_to_unsaved, hb, fsLookup_write_self]
  · cases b with
    | dict d =>
        simp [sweepOne, sweepEnter, VariableDb.init, VariableDb.load, VariableDb.save,
          VariableDb.add_to_unsaved, hb, fsLookup_write_self]
    | nonDict t =>
        simp [sweepOne, sweepEnter, VariableDb.init, VariableDb.load, VariableDb.save,
          VariableDb.add_to_unsaved, hb, fsLookup_write_self]

lemma sweepOne_fs_preserve (g : PyDict) (s : FS × Registry) (q p : String)
    (h : (fsLookup s.1 p).isSome = true) :
    (fsLookup (sweepOne g s q).1 p).isSome = true := by
  rcases hb : fsLookup s.1 (check_file_name q) with _ | b
  · simp [sweepOne, sweepEnter, VariableDb.init, VariableDb.load, VariableDb.save,
      VariableDb.add_to_unsaved, hb]
    exact fsLookup_write_isSome _ _ _ _ (fsLookup_write_isSome _ _ _ _ h)
  · cases b with
    | dict d =>
        simp [sweepOne, sweepEnter, VariableDb.init, VariableDb.load, VariableDb.save,
          VariableDb.add_to_unsaved, hb]
        exact fsLookup_write_isSome _ _ _ _ (fsLookup_write_isSome _ _ _ _ h)
    | nonDict t =>
        simp [sweepOne, sweepEnter, VariableDb.init, VariableDb.load, VariableDb.save,
          VariableDb.add_to_unsaved, hb]
        exact fsLookup_write_isSome _ _ _ _ (fsLookup_write_isSome _ _ _ _ h)

lemma sweep_fold_stable {g : PyDict} {l : List String} {s : FS × Registry} {p : String}
    (h1 : p ∉ s.2) (h2 : (fsLookup s.1 p).isSome = true) :
    p ∉ (l.foldl (sweepOne g) s).2 ∧
      (fsLookup (l.foldl (sweepOne g) s).1 p).isSome = true := by
  induction l generalizing s with
  | nil => exact ⟨h1, h2⟩
  | cons q tl ih =>
      simp only [List.foldl_cons]
      exact ih (fun hmem => h1 (sweepOne_reg_mem hmem).1) (sweepOne_fs_preserve _ _ _ _ h2)

lemma sweep_fold_covers {g : PyDict} {l : List String} {s : FS × Registry} {p : String}
    (hp : p ∈ l) (hc : check_file_name p = p) :
    p ∉ (l.foldl (sweepOne g) s).2 ∧
      (fsLookup (l.foldl (sweepOne g) s).1 p).isSome = true := by
  induction l generalizing s with
  | nil => cases hp
  | cons q tl ih =>
      simp only [List.foldl_cons]
      by_cases hq : p ∈ tl
      · exact ih hq
      · have hpq : p = q := by
          rcases List.mem_cons.mp hp with h | h
          · exact h
          · exact absurd h hq
        subst hpq
        apply sweep_fold_stable
        · intro hmem
          exact (sweepOne_reg_mem hmem).2 hc.symm
        · have := sweepOne_fs_self g s p
          rwa [hc] at this

/-! Additional operation-level lemmas shared by the claim theorems. -/

lemma mem_setAdd_of_mem {r : Registry} {x p : String} (h : p ∈ r) : p ∈ setAdd r x :=
  mem_setAdd_iff.mpr (Or.inl h)

lemma add_of_error {db : VariableDb} {v : Nat} {e : DbError} (reg : Registry)
    (h : db.addCore v = .error e) : db.add reg v = (db, reg, some e) := by
  simp [VariableDb.add, h]

lemma addMLoop_append (db : VariableDb) (reg : Registry) (vs₁ vs₂ : List Nat) :
    VariableDb.addMLoop db reg (vs₁ ++ vs₂)
      = VariableDb.addMLoop (VariableDb.addMLoop db reg vs₁).1
          (VariableDb.addMLoop db reg vs₁).2 vs₂ := by
  unfold VariableDb.addMLoop
  rw [List.foldl_append]

lemma addMLoop_cons (db : VariableDb) (reg : Registry) (v : Nat) (vs : List Nat) :
    VariableDb.addMLoop db reg (v :: vs)
      = VariableDb.addMLoop (db.add reg v).1 (db.add reg v).2.1 vs := rfl

lemma add_scope (db : VariableDb) (reg : Registry) (v : Nat) :
    (db.add reg v).1.scope = db.scope := by
  cases h : db.addCore v <;> simp [VariableDb.add, h]

lemma delete_scope (db : VariableDb) (reg : Registry) (v : Nat) :
    (db.delete reg v).1.scope = db.scope := by
  cases h : db.deleteCore v <;> simp [VariableDb.delete, h]

lemma replace_scope (db : VariableDb) (reg : Registry) (v : Nat) :
    (db.replace reg v).1.scope = db.scope := by
  cases h : db.replaceCore v <;> simp [VariableDb.replace, h]

lemma load_scope (db : VariableDb) (fs : FS) (reg : Registry) :
    (db.load fs reg).1.scope = db.scope := by
  unfold VariableDb.load
  cases hfs : fsLookup fs db.filename with
  | none => simp
  | some b => cases b <;> simp

lemma addMLoop_scope (vs : List Nat) (db : VariableDb) (reg : Registry) :
    (VariableDb.addMLoop db reg vs).1.scope = db.scope := by
  induction vs generalizing db reg with
  | nil => rfl
  | cons v tl ih =>
      rw [addMLoop_cons, ih]
      exact add_scope db reg v

lemma add_reg_mem {p : String} (db : VariableDb) (reg : Registry) (v : Nat)
    (h : p ∈ reg) : p ∈ (db.add reg v).2.1 := by
  cases hc : db.addCore v with
  | ok d => simp only [VariableDb.add, hc, VariableDb.add_to_unsaved]
            exact mem_setAdd_of_mem h
  | error e => simpa [VariableDb.add, hc] using h

lemma addMLoop_reg_mem {p : String} (vs : List Nat) (db : VariableDb) (reg : Registry)
    (h : p ∈ reg) : p ∈ (VariableDb.addMLoop db reg vs).2 := by
  induction vs generalizing db reg with
  | nil => exact h
  | cons v tl ih =>
      rw [addMLoop_cons]
      exact ih _ _ (add_reg_mem db reg v h)

/-! Claim theorems. -/

/-- Claim C1 (behaviour at the failing input): on the spec's concrete scenario —
scope `{}`, `add(123)` — the body of `add` does fail with the name-resolution
error, but the method's `except` clause catches it: `add` returns normally with
entries and registry unchanged, logging the error instead of raising it to the
caller. -/
theorem add_error_logged_not_raised :
    VariableDb.addCore ⟨"t.db", [], []⟩ 123 = .error .nameResolution ∧
    VariableDb.add ⟨"t.db", [], []⟩ [] 123 =
      (⟨"t.db", [], []⟩, [], some .nameResolution) := by
  constructor
  · rfl
  · rfl

/-- Claim C2 (counterexample): with scope binding object `7` under both `"a"`
and `"n"` (in that order), the value is present by identity under the name
`"n"` and `"n"` is not a key of the empty entries, yet `add` resolves the first
matching name `"a"`, so the subsequent lookup of `"n"` does not return the
value. -/
theorem add_first_match_counterexample :
    ("n", 7) ∈ (VariableDb.mk "t.db" [] [("a", 7), ("n", 7)]).scope ∧
    dictLookup (VariableDb.mk "t.db" [] [("a", 7), ("n", 7)]).data "n" = none ∧
    dictLookup ((VariableDb.mk "t.db" [] [("a", 7), ("n", 7)]).add [] 7).1.data "n"
      ≠ some 7 := by
  refine ⟨by decide, by decide, by decide⟩

/-- Claim C2 (amended): for all values `v` whose FIRST identity binding in the
scope (the one `get_variable_name` resolves) is named `n`, with `n` not already
a key of entries, `add(v)` followed by looking up `n` in entries returns `v`. -/
theorem add_then_lookup_first_binding (db : VariableDb) (reg : Registry) (v : Nat)
    (n : String) (h1 : db.get_variable_name v = some n)
    (h2 : dictLookup db.data n = none) :
    dictLookup (db.add reg v).1.data n = some v := by
  simp [VariableDb.add, VariableDb.addCore, h1, dictContains, h2, dictLookup_insert_self]

/-- Witness for C2's amended theorem: the spec's own scenario, scope
`{"x_val": 100}`, `add(100)` then lookup of `"x_val"`. -/
theorem add_then_lookup_first_binding_witness :
    dictLookup ((VariableDb.mk "t.db" [] [("x_val", 100)]).add [] 100).1.data "x_val"
      = some 100 :=
  add_then_lookup_first_binding (VariableDb.mk "t.db" [] [("x_val", 100)]) [] 100 "x_val"
    (by decide) (by decide)

/-- Claim C3: saving a store and then loading through a fresh store constructed
on the same path reproduces the saved entries; moreover the load replaces the
target's entries wholesale — any store bound to that path, whatever its current
entries, ends up with exactly the saved mapping.  Serialization cannot fail in
the embedding, matching the claim's restriction to serializable entries. -/
theorem save_then_load_round_trip (db db' : VariableDb) (fs : FS)
    (reg reg2 reg' : Registry) (scope2 : PyDict)
    (h : strEndsWith db.filename ".db" = true) (hf : db'.filename = db.filename) :
    ((VariableDb.init db.filename scope2 reg2).1.load (db.save fs reg true).2.1
        (VariableDb.init db.filename scope2 reg2).2).1.data = db.data ∧
    (db'.load (db.save fs reg true).2.1 reg').1.data = db.data := by
  have hc := check_file_name_of_suffix h
  constructor
  · simp [VariableDb.init, hc, VariableDb.load, VariableDb.save, fsLookup_write_self]
  · simp [VariableDb.load, VariableDb.save, hf, fsLookup_write_self]

/-- Witness for C3: a store holding `{"greeting": 5}` on path `"t.db"`. -/
theorem save_then_load_round_trip_witness :
    ((VariableDb.init "t.db" [] []).1.load
        ((VariableDb.mk "t.db" [("greeting", 5)] []).save [] [] true).2.1
        (VariableDb.init "t.db" [] []).2).1.data = [("greeting", 5)] ∧
    ((VariableDb.mk "t.db" [("stale", 9)] []).load
        ((VariableDb.mk "t.db" [("greeting", 5)] []).save [] [] true).2.1 []).1.data
      = [("greeting", 5)] :=
  save_then_load_round_trip (VariableDb.mk "t.db" [("greeting", 5)] [])
    (VariableDb.mk "t.db" [("stale", 9)] []) [] [] [] [] [] (by decide) (by decide)

/-- Claim C4 (spec-modelled): deletion by name with a non-string argument fails
with the `TypeMismatchError`, an error distinct from the not-found case, and
never silently no-ops (the result is an error, not a successful dict). -/
theorem delete_by_name_rejects_non_string (db : VariableDb) (id : Nat) :
    delete_by_name db (PyArg.nonStr id) = .error .typeMismatch ∧
    DbError.typeMismatch ≠ DbError.notFound := by
  exact ⟨rfl, by decide⟩

/-- Claim C5: a successful `save` removes exactly the store's path from the
dirty registry (any other path's membership is untouched), and a `save` that
fails with an I/O or serialization error leaves the registry unchanged. -/
theorem save_registry_effect (db : VariableDb) (fs : FS) (reg : Registry)
    (p : String) :
    db.filename ∉ (db.save fs reg true).2.2 ∧
    (p ∈ (db.save fs reg true).2.2 ↔ p ∈ reg ∧ p ≠ db.filename) ∧
    (db.save fs reg false).2.2 = reg := by
  refine ⟨?_, ?_, rfl⟩
  · simp [VariableDb.save, mem_setRemove_iff]
  · simp [VariableDb.save, mem_setRemove_iff]

lemma delete_reg_mem {p : String} (db : VariableDb) (reg : Registry) (v : Nat)
    (h : p ∈ reg) : p ∈ (db.delete reg v).2.1 := by
  cases hc : db.deleteCore v with
  | ok d => simp only [VariableDb.delete, hc, VariableDb.add_to_unsaved]
            exact mem_setAdd_of_mem h
  | error e => simpa [VariableDb.delete, hc] using h

lemma replace_reg_mem {p : String} (db : VariableDb) (reg : Registry) (v : Nat)
    (h : p ∈ reg) : p ∈ (db.replace reg v).2.1 := by
  cases hc : db.replaceCore v with
  | ok d => simp only [VariableDb.replace, hc, VariableDb.add_to_unsaved]
            exact mem_setAdd_of_mem h
  | error e => simpa [VariableDb.replace, hc] using h

lemma load_reg_mem_of_mem {p : String} (db : VariableDb) (fs : FS) (reg : Registry)
    (h : p ∈ reg) : p ∈ (db.load fs reg).2 := by
  unfold VariableDb.load
  cases hfs : fsLookup fs db.filename with
  | none => exact h
  | some b =>
      cases b with
      | dict d => exact mem_setAdd_of_mem h
      | nonDict t => exact h

/-- Claim C6: the sweep iterates a snapshot of the dirty registry taken before
it begins, so removals performed by the per-path saves never cause a path that
was registered at sweep start to be skipped: every such path (they are
`.db`-normalised) is reloaded and re-saved — afterwards it is out of the
registry and its file exists — via a transient default-scope store. -/
theorem save_all_open_files_covers_snapshot (g : PyDict) (fs : FS)
    (reg : Registry) (p : String) (h1 : p ∈ reg)
    (h2 : strEndsWith p ".db" = true) :
    p ∉ (save_all_open_files g fs reg).2 ∧
      (fsLookup (save_all_open_files g fs reg).1 p).isSome = true := by
  have hc := check_file_name_of_suffix h2
  unfold save_all_open_files
  exact sweep_fold_covers h1 hc

/-- Witness for C6: a two-path registry where processing `"a.db"` removes it
mid-sweep and `"b.db"` is still handled. -/
theorem save_all_open_files_covers_snapshot_witness :
    ("b.db" ∉ (save_all_open_files [] [("a.db", Blob.dict [("x", 1)])]
        ["a.db", "b.db"]).2 ∧
      (fsLookup (save_all_open_files [] [("a.db", Blob.dict [("x", 1)])]
        ["a.db", "b.db"]).1 "b.db").isSome = true) :=
  save_all_open_files_covers_snapshot [] [("a.db", Blob.dict [("x", 1)])]
    ["a.db", "b.db"] "b.db" (by decide) (by decide)

/-- Claim C7 (spec-modelled): `get(name, default)` returns the entry when the
name is a key of entries and the default (without raising) otherwise, while
container-style lookup returns the same entry when present but fails with
`KeyNotFoundError` when absent. -/
theorem get_and_getitem_semantics (db : VariableDb) (n : String) (d v : Nat) :
    (dictLookup db.data n = some v → (db.get n d = v ∧ db.getItem n = .ok v)) ∧
    (dictLookup db.data n = none →
      (db.get n d = d ∧ db.getItem n = .error .keyNotFound)) := by
  constructor
  · intro h
    simp [VariableDb.get, VariableDb.getItem, h]
  · intro h
    simp [VariableDb.get, VariableDb.getItem, h]

/-- Witness for C7: a store with entry `("x", 1)`, looked up at the present key
`"x"` and at the absent key `"missing"` with default `9`. -/
theorem get_and_getitem_semantics_witness :
    ((VariableDb.mk "t.db" [("x", 1)] []).get "x" 9 = 1 ∧
      (VariableDb.mk "t.db" [("x", 1)] []).getItem "x" = .ok 1) ∧
    ((VariableDb.mk "t.db" [("x", 1)] []).get "missing" 9 = 9 ∧
      (VariableDb.mk "t.db" [("x", 1)] []).getItem "missing"
        = .error .keyNotFound) :=
  ⟨(get_and_getitem_semantics (VariableDb.mk "t.db" [("x", 1)] []) "x" 9 1).1
      (by decide),
   (get_and_getitem_semantics (VariableDb.mk "t.db" [("x", 1)] []) "missing" 9 1).2
      (by decide)⟩

/-- Claim C8: a value on which `add` fails does not abort `add_multiple` — the
whole run is the same as if the failing value were simply absent from the
sequence, so every later value is still attempted and individually successful
values end up in entries. -/
theorem add_multiple_skips_failed_value (db : VariableDb) (reg : Registry)
    (vs₁ vs₂ : List Nat) (v : Nat) (e : DbError)
    (h : (VariableDb.addMLoop db reg vs₁).1.addCore v = .error e) :
    db.add_multiple reg (vs₁ ++ v :: vs₂) = db.add_multiple reg (vs₁ ++ vs₂) := by
  have hloop : VariableDb.addMLoop db reg (vs₁ ++ v :: vs₂)
      = VariableDb.addMLoop db reg (vs₁ ++ vs₂) := by
    rw [addMLoop_append db reg vs₁ (v :: vs₂), addMLoop_cons,
      add_of_error _ h, addMLoop_append db reg vs₁ vs₂]
  unfold VariableDb.add_multiple
  rw [hloop]

/-- Witness for C8: scope `{"a": 1, "b": 2}`, `add_multiple(99, 2)` where `99`
has no scope binding — it behaves exactly like `add_multiple(2)`. -/
theorem add_multiple_skips_failed_value_witness :
    (VariableDb.mk "t.db" [] [("a", 1), ("b", 2)]).add_multiple [] [99, 2]
      = (VariableDb.mk "t.db" [] [("a", 1), ("b", 2)]).add_multiple [] [2] :=
  add_multiple_skips_failed_value (VariableDb.mk "t.db" [] [("a", 1), ("b", 2)])
    [] [] [2] 99 .nameResolution (by rfl)

lemma add_by_name_ok_parts {db : VariableDb} {reg r2 : Registry} {n : String}
    {db2 : VariableDb} (hn : db.add_by_name reg n = .ok (db2, r2)) :
    db2.scope = db.scope ∧ r2 = db.add_to_unsaved reg := by
  unfold VariableDb.add_by_name at hn
  split at hn
  · exact Except.noConfusion hn
  · split at hn
    · exact Except.noConfusion hn
    · injection hn with hp
      rw [Prod.mk.injEq] at hp
      obtain ⟨h1, h2⟩ := hp
      refine ⟨?_, h2.symm⟩
      rw [← h1]

/-- Claim C9: no store operation writes to the caller-supplied scope — the
resulting store's `scope` is always the one it started with (name resolution,
`get_variable_name`, is a pure read and returns no state at all). -/
theorem operations_preserve_scope (db db2 : VariableDb) (reg reg2 : Registry)
    (fs : FS) (v : Nat) (n : String) (vs : List Nat) (ok : Bool) :
    (db.add_by_name reg n = .ok (db2, reg2) → db2.scope = db.scope) ∧
    (db.add reg v).1.scope = db.scope ∧
    (db.add_multiple reg vs).1.scope = db.scope ∧
    (db.delete reg v).1.scope = db.scope ∧
    (db.replace reg v).1.scope = db.scope ∧
    (db.save fs reg ok).1.scope = db.scope ∧
    (db.load fs reg).1.scope = db.scope ∧
    (db.clear reg).1.scope = db.scope := by
  refine ⟨?_, add_scope db reg v, addMLoop_scope vs db reg, delete_scope db reg v,
    replace_scope db reg v, ?_, load_scope db fs reg, rfl⟩
  · intro hn
    exact (add_by_name_ok_parts hn).1
  · cases ok <;> rfl

/-- Witness for C9: each operation applied to the store on `"t.db"` with scope
`{"a": 1}` leaves the scope untouched. -/
theorem operations_preserve_scope_witness :
    ((VariableDb.mk "t.db" [("a", 1)] [("a", 1)]).scope
        = (VariableDb.mk "t.db" [] [("a", 1)]).scope) ∧
    ((VariableDb.mk "t.db" [] [("a", 1)]).add [] 1).1.scope
        = (VariableDb.mk "t.db" [] [("a", 1)]).scope ∧
    ((VariableDb.mk "t.db" [] [("a", 1)]).add_multiple [] [1]).1.scope
        = (VariableDb.mk "t.db" [] [("a", 1)]).scope ∧
    ((VariableDb.mk "t.db" [] [("a", 1)]).delete [] 1).1.scope
        = (VariableDb.mk "t.db" [] [("a", 1)]).scope ∧
    ((VariableDb.mk "t.db" [] [("a", 1)]).replace [] 1).1.scope
        = (VariableDb.mk "t.db" [] [("a", 1)]).scope ∧
    ((VariableDb.mk "t.db" [] [("a", 1)]).save [] [] true).1.scope
        = (VariableDb.mk "t.db" [] [("a", 1)]).scope ∧
    ((VariableDb.mk "t.db" [] [("a", 1)]).load [] []).1.scope
        = (VariableDb.mk "t.db" [] [("a", 1)]).scope ∧
    ((VariableDb.mk "t.db" [] [("a", 1)]).clear []).1.scope
        = (VariableDb.mk "t.db" [] [("a", 1)]).scope :=
  ⟨(operations_preserve_scope (VariableDb.mk "t.db" [] [("a", 1)])
      (VariableDb.mk "t.db" [("a", 1)] [("a", 1)]) [] ["t.db"] [] 1 "a" [1] true).1
      (by rfl),
   (operations_preserve_scope (VariableDb.mk "t.db" [] [("a", 1)])
      (VariableDb.mk "t.db" [("a", 1)] [("a", 1)]) [] ["t.db"] [] 1 "a" [1] true).2⟩

/-- Claim C10: constructing a store immediately registers its
extension-normalised path in the dirty registry even though the fresh store has
empty entries, and the path then stays registered across every operation —
including a failed save — until a successful save removes it. -/
theorem init_registers_path_until_save (raw : String) (scope : PyDict)
    (reg : Registry) (db db2 : VariableDb) (r r2 : Registry) (fs : FS)
    (v : Nat) (n : String) (vs : List Nat) (hmem : db.filename ∈ r) :
    (db.add_by_name r n = .ok (db2, r2) → db.filename ∈ r2) ∧
    (VariableDb.init raw scope reg).1.data = [] ∧
    (VariableDb.init raw scope reg).1.filename = check_file_name raw ∧
    (VariableDb.init raw scope reg).1.filename ∈ (VariableDb.init raw scope reg).2 ∧
    db.filename ∈ (db.add r v).2.1 ∧
    db.filename ∈ (db.add_multiple r vs).2 ∧
    db.filename ∈ (db.delete r v).2.1 ∧
    db.filename ∈ (db.replace r v).2.1 ∧
    db.filename ∈ (db.load fs r).2 ∧
    db.filename ∈ (db.clear r).2 ∧
    db.filename ∈ (db.save fs r false).2.2 ∧
    db.filename ∉ (db.save fs r true).2.2 := by
  refine ⟨?_, rfl, rfl, ?_, add_reg_mem db r v hmem, ?_, delete_reg_mem db r v hmem,
    replace_reg_mem db r v hmem, load_reg_mem_of_mem db fs r hmem, ?_, hmem, ?_⟩
  · intro hn
    rw [(add_by_name_ok_parts hn).2]
    show db.filename ∈ setAdd r db.filename
    exact mem_setAdd_iff.mpr (Or.inr rfl)
  · exact mem_setAdd_iff.mpr (Or.inr rfl)
  · show db.filename ∈ setAdd (VariableDb.addMLoop db r vs).2
      (VariableDb.addMLoop db r vs).1.filename
    exact mem_setAdd_of_mem (addMLoop_reg_mem vs db r hmem)
  · exact mem_setAdd_of_mem hmem
  · simp [VariableDb.save, mem_setRemove_iff]

/-- Witness for C10: construct on the raw name `"x"` (normalised to `"x.db"`),
and track path `"t.db"` of a live store through every operation. -/
theorem init_registers_path_until_save_witness :
    ((VariableDb.mk "t.db" [] [("a", 1)]).add_by_name ["t.db"] "a"
        = .ok (VariableDb.mk "t.db" [("a", 1)] [("a", 1)], ["t.db"]) →
      "t.db" ∈ ["t.db"]) ∧
    (VariableDb.init "x" [] []).1.data = [] ∧
    (VariableDb.init "x" [] []).1.filename = check_file_name "x" ∧
    (VariableDb.init "x" [] []).1.filename ∈ (VariableDb.init "x" [] []).2 ∧
    "t.db" ∈ ((VariableDb.mk "t.db" [] [("a", 1)]).add ["t.db"] 1).2.1 ∧
    "t.db" ∈ ((VariableDb.mk "t.db" [] [("a", 1)]).add_multiple ["t.db"] [1]).2 ∧
    "t.db" ∈ ((VariableDb.mk "t.db" [] [("a", 1)]).delete ["t.db"] 1).2.1 ∧
    "t.db" ∈ ((VariableDb.mk "t.db" [] [("a", 1)]).replace ["t.db"] 1).2.1 ∧
    "t.db" ∈ ((VariableDb.mk "t.db" [] [("a", 1)]).load [] ["t.db"]).2 ∧
    "t.db" ∈ ((VariableDb.mk "t.db" [] [("a", 1)]).clear ["t.db"]).2 ∧
    "t.db" ∈ ((VariableDb.mk "t.db" [] [("a", 1)]).save [] ["t.db"] false).2.2 ∧
    "t.db" ∉ ((VariableDb.mk "t.db" [] [("a", 1)]).save [] ["t.db"] true).2.2 :=
  init_registers_path_until_save "x" [] [] (VariableDb.mk "t.db" [] [("a", 1)])
    (VariableDb.mk "t.db" [("a", 1)] [("a", 1)]) ["t.db"] ["t.db"] [] 1 "a" [1]
    (by decide)
